import Mathlib

/-!
# Verification of `ImagesToNerfstudioDataset.main`
(`nerfstudio/process_data/images_to_nerfstudio_dataset.py`)

Shallow embedding of the dataset-assembly pipeline: the orchestration in
`ImagesToNerfstudioDataset.main` is translated into a pure function from a
configuration and an abstract filesystem to a run result consisting of the
ordered list of collaborator invocations (events) and an optional fatal
error.  External collaborators that are not part of the source file
(`process_data_utils.copy_images`, `process_data_utils.save_mask`,
`equirect_utils.*`, `_run_colmap`, `_export_depth`, `_save_transforms`)
are modelled from the specification's collaborator interfaces; their
invocations are recorded as events so that properties about what the
pipeline passes to them can be stated.
-/

namespace ImagesToNerfstudio

/-- Filesystem paths, modelled as plain strings. -/
abbrev Path := String

/-- Joins two paths, as `p / q` on `pathlib.Path` values. -/
def joinPath (p q : Path) : Path := p ++ "/" ++ q

/-- Computes `pathlib.Path(name).suffix`, following pathlib's definition:
with `i` the index of the last dot (`name.rfind('.')`), the suffix is
`name[i:]` when `0 < i < len(name) - 1`, and empty otherwise. -/
def pathSuffix (name : String) : String :=
  match (name.data.enum.filter fun p => p.2 = '.').getLast? with
  | none => ""
  | some (i, _) =>
    if 0 < i ∧ i < name.data.length - 1 then String.mk (name.data.drop i) else ""

/-- Python `f"{n:05}"`: decimal rendering left-padded with zeros to width 5. -/
def zeroPad5 (n : Nat) : String :=
  let s := toString n
  String.mk (List.replicate (5 - s.length) '0') ++ s

/-- Four-sided fractional crop factor.  The pipeline only threads it
through to collaborators, so rationals stand in for the Python floats. -/
abbrev CropFactor := ℚ × ℚ × ℚ × ℚ

/-- The configuration fields of `ImagesToNerfstudioDataset` (including the
inherited `ColmapConverterToNerfstudioDataset` fields) that `main` reads. -/
structure Config where
  /-- Field `self.data`: the input path. -/
  data : Path
  /-- Field `self.output_dir`. -/
  output_dir : Path
  /-- Field `self.camera_type`. -/
  camera_type : String
  /-- Field `self.images_per_equirect`. -/
  images_per_equirect : Nat
  /-- Field `self.crop_factor`. -/
  crop_factor : CropFactor
  /-- Field `self.num_downscales`. -/
  num_downscales : Nat
  /-- Field `self.percent_radius_crop`. -/
  percent_radius_crop : ℚ
  /-- Field `self.frame_mask_path` (empty string = not configured). -/
  frame_mask_path : String
  /-- Field `self.depth_path` (empty string = not configured). -/
  depth_path : String
  /-- Field `self.skip_colmap`. -/
  skip_colmap : Bool
  /-- Field `self.skip_image_processing`. -/
  skip_image_processing : Bool
  /-- Field `self.colmap_model_path` (relative to `output_dir`). -/
  colmap_model_path : Path
  deriving Repr, DecidableEq

/-- Value of `ColmapConverterToNerfstudioDataset.default_colmap_path()`:
`Path("colmap/sparse/0")`. -/
def defaultColmapPath : Path := "colmap/sparse/0"

/-- Derived property `self.image_dir` = `self.output_dir / "images"`. -/
def Config.image_dir (c : Config) : Path := joinPath c.output_dir "images"

/-- Derived property `self.image_dir.parent`.  Since `image_dir = output_dir / "images"`,
its parent is `output_dir`. -/
def Config.image_dir_parent (c : Config) : Path := c.output_dir

/-- Derived property `self.absolute_colmap_model_path` =
`self.output_dir / self.colmap_model_path`. -/
def Config.absolute_colmap_model_path (c : Config) : Path :=
  joinPath c.output_dir c.colmap_model_path

/-- The abstract filesystem / external-collaborator state a run observes.
All fields describing collaborators outside the source file are modelled
from the spec's collaborator interfaces (§6). -/
structure World where
  /-- Result of `Path.exists()` on disk. -/
  pathExists : Path → Bool
  /-- Modelled from the spec: `list_images(dir) -> ordered_sequence_of_path`
  — the ordered file names found in a directory. -/
  listImages : Path → List String
  /-- Modelled from the spec: `generate_projections(source, resolution,
  count, crop_factor) -> new_working_dir` — the directory of generated
  planar projections for an equirectangular source. -/
  planarProjectionsDir : Path → Path
  /-- Modelled from the spec: the `frame index → depth path` table produced
  by the reconstruction pipeline's own depth export (`_export_depth`). -/
  exportedDepth : List (Nat × Path)

/-- A fatal way a run can end. -/
inductive RunError where
  /-- Python `raise RuntimeError(msg)`. -/
  | runtimeError (msg : String)
  /-- Python `UnboundLocalError` for a local variable never assigned. -/
  | unboundLocal (name : String)
  deriving Repr, DecidableEq

/-- One collaborator invocation performed by `main`, in order. -/
inductive Event where
  /-- Invocation `process_data_utils.copy_images(src, image_dir=dst, crop_factor=crop,
  ..., nearest_neighbor=nearest)`. -/
  | copyImages (src dst : Path) (crop : CropFactor) (nearest : Bool)
  /-- Invocation `process_data_utils.save_mask(image_dir=dir, ..., crop_factor=crop,
  percent_radius=pr, frame_mask_path=fmp)`. -/
  | saveMask (dir : Path) (crop : CropFactor) (pr : ℚ) (fmp : String)
  /-- Invocation `self._run_colmap()` on the working image set, observing the current
  `self.camera_type`. -/
  | runColmap (data : Path) (cameraType : String)
  /-- Invocation `self._export_depth()`. -/
  | exportDepth
  /-- Invocation `self._save_transforms(num_frames, image_id_to_depth_path, mask_path,
  image_rename_map)`, observing the current `self.camera_type`. -/
  | saveTransforms (numFrames : Nat) (depthTable : List (Nat × Path))
      (maskPath : Option String) (renameMap : Option (List (String × String)))
      (cameraType : String)
  deriving Repr, DecidableEq

/-- Whether an event is the manifest-writing invocation. -/
def Event.isSaveTransforms : Event → Bool
  | .saveTransforms _ _ _ _ _ => true
  | _ => false

/-- The outcome of a run: the ordered collaborator invocations actually
performed before termination, and the fatal error if the run aborted. -/
structure RunResult where
  events : List Event
  error : Option RunError
  deriving Repr, DecidableEq

/-- Modelled from the spec: `copy_and_downscale(source_dir, dest_dir, crop,
downscale_levels, nearest_neighbor) -> mapping(original_name -> new_name)`
(`process_data_utils.copy_images`).  It copies the listed images in order,
renaming the i-th (1-based) to `frame_{i:05d}{original suffix}`, and is
fatal when zero usable images are found (§4.1: "Error condition: zero
usable images found → fatal"). -/
def copy_images (w : World) (src : Path) : Except RunError (List (String × String)) :=
  let imgs := w.listImages src
  if imgs = [] then
    .error (.runtimeError "No usable images in the data folder.")
  else
    .ok (imgs.enum.map fun p => (p.2, "frame_" ++ zeroPad5 (p.1 + 1) ++ pathSuffix p.2))

/-- The Depth Association table built from an externally supplied depth
directory: the i-th copied depth file (1-based, strict copy order, original
names `files`) is associated to frame index i at
`outputDepthPath / "frame_{i:05d}{original suffix}"`.  Embeds the loop
`for count, value in enumerate(copied_depth_images, start=1): ...`. -/
def externalDepthTable (outputDepthPath : Path) (files : List String) :
    List (Nat × Path) :=
  files.enum.map fun p =>
    (p.1 + 1, joinPath outputDepthPath ("frame_" ++ zeroPad5 (p.1 + 1) ++ pathSuffix p.2))

/-- The mask resolution at manifest-build time (`mask_path = self.image_dir.parent
/ "masks"; if mask_path.exists(): ... else: mask_path = None`). -/
def resolvedMaskPath (c : Config) (w : World) : Option String :=
  if w.pathExists (joinPath c.image_dir_parent "masks") then
    if c.frame_mask_path = "" then some "masks/mask.png"
    else some (joinPath c.image_dir_parent "masks")
  else none

/-- The tail of `main` after the depth table is in hand: the `cameras.bin`
postcondition check, mask resolution and the manifest write. -/
def finishRun (c : Config) (w : World) (camera_type : String)
    (require_cameras_exist : Bool) (irm : Option (List (String × String)))
    (num_frames : Nat) (image_id_to_depth_path : List (Nat × Path))
    (evs : List Event) : RunResult :=
  if require_cameras_exist &&
      !(w.pathExists (joinPath c.absolute_colmap_model_path "cameras.bin")) then
    ⟨evs, some (.runtimeError ("Could not find existing COLMAP results (" ++
      joinPath c.colmap_model_path "cameras.bin" ++ ")."))⟩
  else
    ⟨evs ++ [Event.saveTransforms num_frames image_id_to_depth_path
        (resolvedMaskPath c w) irm camera_type], none⟩

/-- The tail of `main` from the `# Run COLMAP` comment on: colmap
invocation, depth-table construction, and `finishRun`.  `depthCopy`
carries the Python locals `output_depth_path` and `copied_depth_images`
(original names, in copy order), which are bound together or not at all;
`none` models them being unbound. -/
def runFromColmap (c : Config) (w : World) (data camera_type : String)
    (require0 : Bool) (irm : Option (List (String × String))) (num_frames : Nat)
    (depthCopy : Option (Path × List String)) (evs : List Event) : RunResult :=
  let require_cameras_exist := require0 || !c.skip_colmap
  let irm2 := if !c.skip_colmap then none else irm
  let evs2 := if !c.skip_colmap then evs ++ [Event.runColmap data camera_type] else evs
  if c.depth_path = "" then
    finishRun c w camera_type require_cameras_exist irm2 num_frames
      w.exportedDepth (evs2 ++ [Event.exportDepth])
  else
    match depthCopy with
    | none => ⟨evs2, some (.unboundLocal "copied_depth_images")⟩
    | some (odp, files) =>
      finishRun c w camera_type require_cameras_exist irm2 num_frames
        (externalDepthTable odp files) evs2

/-- The working input path after the equirectangular branch of `main`. -/
def workingData (c : Config) (w : World) : Path :=
  if c.camera_type = "equirectangular" then w.planarProjectionsDir c.data else c.data

/-- The `self.camera_type` value after the equirectangular branch of `main`. -/
def workingCameraType (c : Config) : String :=
  if c.camera_type = "equirectangular" then "perspective" else c.camera_type

/-- Embedding of `ImagesToNerfstudioDataset.main`. -/
def main (c : Config) (w : World) : RunResult :=
  -- colmap-model-path precondition checks
  if c.colmap_model_path ≠ defaultColmapPath ∧ c.skip_colmap = false then
    ⟨[], some (.runtimeError
      "The --colmap-model-path can only be used when --skip-colmap is not set.")⟩
  else if c.colmap_model_path ≠ defaultColmapPath ∧
      w.pathExists (joinPath c.output_dir c.colmap_model_path) = false then
    ⟨[], some (.runtimeError ("The colmap-model-path " ++
      joinPath c.output_dir c.colmap_model_path ++ " does not exist."))⟩
  else
    let require0 : Bool := c.colmap_model_path ≠ defaultColmapPath
    -- Generate planar projections if equirectangular
    let data := workingData c w
    let camera_type := workingCameraType c
    -- Copy and downscale images
    if c.skip_image_processing = false then
      let ev1 := Event.copyImages data c.image_dir c.crop_factor false
      match copy_images w data with
      | .error e => ⟨[ev1], some e⟩
      | .ok image_rename_map =>
        let num_frames := image_rename_map.length
        let ev2 := Event.saveMask c.image_dir (0, 0, 0, 0) c.percent_radius_crop
          c.frame_mask_path
        if c.depth_path ≠ "" then
          let output_depth_path := joinPath c.image_dir_parent "depth"
          let ev3 := Event.copyImages c.depth_path output_depth_path c.crop_factor true
          match copy_images w c.depth_path with
          | .error e => ⟨[ev1, ev2, ev3], some e⟩
          | .ok copied_depth_images =>
            runFromColmap c w data camera_type require0 (some image_rename_map)
              num_frames (some (output_depth_path, copied_depth_images.map Prod.fst))
              [ev1, ev2, ev3]
        else
          runFromColmap c w data camera_type require0 (some image_rename_map)
            num_frames none [ev1, ev2]
    else
      let num_frames := (w.listImages data).length
      if num_frames = 0 then
        ⟨[], some (.runtimeError "No usable images in the data folder.")⟩
      else
        runFromColmap c w data camera_type require0 none num_frames none []


/-- The Name Translation Table produced by the Preprocessing Stage of a
run: `none` when image processing was skipped (no table produced), and
the original-name → new-name mapping recorded by `copy_images` otherwise
(also `none` when copying aborted the run before a table existed). -/
def preprocessRenameMap (c : Config) (w : World) : Option (List (String × String)) :=
  if c.skip_image_processing then none
  else match copy_images w (workingData c w) with
    | .ok m => some m
    | .error _ => none

/-- A small concrete filesystem used to exercise the theorems: an input
directory `data` with two images, an external depth directory `dpt` with
one image, every path reported as existing, and an empty reconstruction
depth export. -/
def exWorld : World where
  pathExists := fun _ => true
  listImages := fun p =>
    if p = "data" then ["a.png", "b.jpg"]
    else if p = "dpt" then ["d.png"]
    else []
  planarProjectionsDir := fun p => p ++ "/planar"
  exportedDepth := []

/-- A baseline configuration: perspective input, a non-zero crop factor,
no mask or depth options, nothing skipped, default colmap model path. -/
def exConfig : Config where
  data := "data"
  output_dir := "out"
  camera_type := "perspective"
  images_per_equirect := 8
  crop_factor := (3, 0, 0, 0)
  num_downscales := 3
  percent_radius_crop := 1
  frame_mask_path := ""
  depth_path := ""
  skip_colmap := false
  skip_image_processing := false
  colmap_model_path := defaultColmapPath

/-- A filesystem identical to `exWorld` except that the canonical camera
parameter file `out/colmap/sparse/0/cameras.bin` does not exist. -/
def noCamerasWorld : World :=
  { exWorld with pathExists := fun p => !(p == "out/colmap/sparse/0/cameras.bin") }

/-- A filesystem with no images anywhere. -/
def emptyWorld : World := { exWorld with listImages := fun _ => [] }

/-- A filesystem for the equirectangular scenario: the generated planar
projection directory `data/planar` holds the working images. -/
def eqWorld : World :=
  { exWorld with listImages := fun p => if p = "data/planar" then ["p1.png", "p2.png"] else [] }

/-- Baseline configuration with reconstruction skipped. -/
def exConfigSkipColmap : Config := { exConfig with skip_colmap := true }

/-- Baseline configuration with an external depth directory configured. -/
def c2Config : Config := { exConfig with depth_path := "dpt" }

/-- Baseline configuration with a per-frame mask path configured. -/
def c5Config : Config := { exConfig with frame_mask_path := "fm" }

/-- Baseline configuration with an explicit (non-default) colmap model path
while reconstruction is not skipped. -/
def c6aConfig : Config := { exConfig with colmap_model_path := "custom" }

/-- Baseline configuration with an explicit colmap model path and
reconstruction skipped. -/
def c6bConfig : Config :=
  { exConfig with colmap_model_path := "custom", skip_colmap := true }

/-- A filesystem where the explicitly supplied colmap model path
`out/custom` does not exist. -/
def customMissingWorld : World :=
  { exWorld with pathExists := fun p => !(p == "out/custom") }

/-- Baseline configuration with an external depth directory configured and
image processing skipped (the hazardous combination). -/
def c9Config : Config :=
  { exConfig with depth_path := "dpt", skip_image_processing := true }

/-- Baseline configuration with an equirectangular input. -/
def eqConfig : Config := { exConfig with camera_type := "equirectangular" }

section Lemmas

set_option maxHeartbeats 2000000

theorem copy_images_ok_iff {w : World} {p : Path} {m : List (String × String)} :
    copy_images w p = .ok m ↔
      w.listImages p ≠ [] ∧
      m = (w.listImages p).enum.map
        (fun q => (q.2, "frame_" ++ zeroPad5 (q.1 + 1) ++ pathSuffix q.2)) := by
  simp only [copy_images]
  split
  · simp_all
  · simp_all
    tauto

theorem copy_map_keys (l : List String) :
    List.map (Prod.fst ∘ fun q : Nat × String =>
      (q.2, "frame_" ++ zeroPad5 (q.1 + 1) ++ pathSuffix q.2)) l.enum = l :=
  List.enum_map_snd l

theorem preprocessRenameMap_not_skipped {c : Config} {w : World}
    (hs : c.skip_image_processing = false)
    (hne : ¬w.listImages (workingData c w) = []) :
    preprocessRenameMap c w = some ((w.listImages (workingData c w)).enum.map
      (fun q => (q.2, "frame_" ++ zeroPad5 (q.1 + 1) ++ pathSuffix q.2))) := by
  simp [preprocessRenameMap, hs, copy_images, hne]

theorem preprocessRenameMap_skipped {c : Config} {w : World}
    (hs : c.skip_image_processing = true) :
    preprocessRenameMap c w = none := by
  simp [preprocessRenameMap, hs]

/-- Central elimination lemma: everything the manifest-building invocation
recorded in a run's trace is determined by the configuration and the
filesystem — no error was raised, the mask reference is the resolved one,
the camera tag is the post-preprocessing one, the name-translation table is
forwarded exactly when colmap was skipped, and the depth table comes from
the export or the external directory according to `depth_path`. -/
theorem saveTransforms_mem {c : Config} {w : World} {nf : Nat}
    {dt : List (Nat × Path)} {mp : Option String}
    {rm : Option (List (String × String))} {ct : String}
    (h : Event.saveTransforms nf dt mp rm ct ∈ (main c w).events) :
    (main c w).error = none ∧
    mp = resolvedMaskPath c w ∧
    ct = workingCameraType c ∧
    rm = (if c.skip_colmap then preprocessRenameMap c w else none) ∧
    dt = (if c.depth_path = "" then w.exportedDepth
          else externalDepthTable (joinPath c.image_dir_parent "depth")
            (w.listImages c.depth_path)) := by
  obtain ⟨r, hr⟩ : ∃ r, main c w = r := ⟨_, rfl⟩
  rw [hr] at h ⊢
  simp only [main, runFromColmap, finishRun] at hr
  repeat' split at hr
  all_goals subst hr
  all_goals simp_all [copy_images_ok_iff, copy_map_keys,
    preprocessRenameMap_not_skipped, preprocessRenameMap_skipped]

end Lemmas

section MoreLemmas

set_option maxHeartbeats 2000000

theorem externalDepthTable_length (odp : Path) (files : List String) :
    (externalDepthTable odp files).length = files.length := by
  simp [externalDepthTable]

theorem externalDepthTable_getElem (odp : Path) (files : List String) (i : Nat) :
    (externalDepthTable odp files)[i]? = files[i]?.map (fun name =>
      (i + 1, joinPath odp ("frame_" ++ zeroPad5 (i + 1) ++ pathSuffix name))) := by
  simp only [externalDepthTable, List.getElem?_map, List.getElem?_enum]
  cases files[i]? <;> simp

theorem exportDepth_mem {c : Config} {w : World}
    (h : Event.exportDepth ∈ (main c w).events) : c.depth_path = "" := by
  obtain ⟨r, hr⟩ : ∃ r, main c w = r := ⟨_, rfl⟩
  rw [hr] at h
  simp only [main, runFromColmap, finishRun] at hr
  repeat' split at hr
  all_goals subst hr
  all_goals simp_all

theorem manifest_written_iff_no_error (c : Config) (w : World) :
    (main c w).events.countP Event.isSaveTransforms =
      (if (main c w).error = none then 1 else 0) := by
  obtain ⟨r, hr⟩ : ∃ r, main c w = r := ⟨_, rfl⟩
  rw [hr]
  simp only [main, runFromColmap, finishRun] at hr
  repeat' split at hr
  all_goals subst hr
  all_goals simp [Event.isSaveTransforms]

theorem last_event_is_saveTransforms {c : Config} {w : World}
    (h : (main c w).error = none) :
    ∃ nf dt mp rm ct, (main c w).events.getLast? =
      some (Event.saveTransforms nf dt mp rm ct) := by
  obtain ⟨r, hr⟩ : ∃ r, main c w = r := ⟨_, rfl⟩
  rw [hr] at h ⊢
  simp only [main, runFromColmap, finishRun] at hr
  repeat' split at hr
  all_goals subst hr
  all_goals simp_all

end MoreLemmas

section Claims

set_option maxHeartbeats 4000000

/-- C1: the Name Translation Table produced by preprocessing is discarded
if and only if reconstruction actually executes.  When colmap is not
skipped, the manifest builder receives no name-translation table; when
colmap is skipped, the table produced by preprocessing (or its absence,
when image processing was also skipped) is forwarded unchanged. -/
theorem renameMap_discarded_iff_reconstruction_runs (c : Config) (w : World)
    {nf : Nat} {dt : List (Nat × Path)} {mp : Option String}
    {rm : Option (List (String × String))} {ct : String}
    (h : Event.saveTransforms nf dt mp rm ct ∈ (main c w).events) :
    (c.skip_colmap = false → rm = none) ∧
    (c.skip_colmap = true → rm = preprocessRenameMap c w) := by
  obtain ⟨-, -, -, hrm, -⟩ := saveTransforms_mem h
  constructor <;> intro hs <;> rw [hs] at hrm <;> simpa using hrm

/-- Witness for C1 at a concrete skip-colmap run: the preprocessing rename
table is forwarded unchanged to the manifest builder. -/
theorem renameMap_discarded_iff_reconstruction_runs_witness :
    (Event.saveTransforms 2 []
        (some "masks/mask.png")
        (some [("a.png", "frame_00001.png"), ("b.jpg", "frame_00002.jpg")])
        "perspective" ∈ (main exConfigSkipColmap exWorld).events) ∧
    exConfigSkipColmap.skip_colmap = true ∧
    some [("a.png", "frame_00001.png"), ("b.jpg", "frame_00002.jpg")] =
      preprocessRenameMap exConfigSkipColmap exWorld :=
  ⟨by decide, by decide,
    (@renameMap_discarded_iff_reconstruction_runs exConfigSkipColmap exWorld 2 []
      (some "masks/mask.png")
      (some [("a.png", "frame_00001.png"), ("b.jpg", "frame_00002.jpg")])
      "perspective" (by decide)).2 (by decide)⟩

/-- C2: with an external depth directory configured, the
reconstruction-derived depth export is never invoked, and any manifest
invocation carries the Depth Association table built from the external
directory: one entry per listed depth image, keyed 1..K in copy order,
mapping index i to `output_depth_dir / "frame_{i:05d}{original suffix}"`;
with no external depth directory, the table is the reconstruction
pipeline's own export. -/
theorem externalDepth_table_shape (c : Config) (w : World) :
    (c.depth_path ≠ "" →
      Event.exportDepth ∉ (main c w).events ∧
      ∀ nf dt mp rm ct, Event.saveTransforms nf dt mp rm ct ∈ (main c w).events →
        dt = externalDepthTable (joinPath c.image_dir_parent "depth")
          (w.listImages c.depth_path) ∧
        dt.length = (w.listImages c.depth_path).length ∧
        ∀ i name, (w.listImages c.depth_path)[i]? = some name →
          dt[i]? = some (i + 1, joinPath (joinPath c.image_dir_parent "depth")
            ("frame_" ++ zeroPad5 (i + 1) ++ pathSuffix name))) ∧
    (c.depth_path = "" →
      ∀ nf dt mp rm ct, Event.saveTransforms nf dt mp rm ct ∈ (main c w).events →
        dt = w.exportedDepth) := by
  constructor
  · intro hd
    constructor
    · intro hmem
      exact hd (exportDepth_mem hmem)
    · intro nf dt mp rm ct h
      obtain ⟨-, -, -, -, hdt⟩ := saveTransforms_mem h
      rw [if_neg hd] at hdt
      subst hdt
      refine ⟨rfl, externalDepthTable_length _ _, ?_⟩
      intro i name hn
      rw [externalDepthTable_getElem, hn]
      rfl
  · intro hd nf dt mp rm ct h
    obtain ⟨-, -, -, -, hdt⟩ := saveTransforms_mem h
    rwa [if_pos hd] at hdt

/-- Witness for C2 at a concrete run with one external depth image. -/
theorem externalDepth_table_shape_witness :
    c2Config.depth_path ≠ "" ∧
    Event.exportDepth ∉ (main c2Config exWorld).events ∧
    Event.saveTransforms 2 [(1, "out/depth/frame_00001.png")] (some "masks/mask.png")
      none "perspective" ∈ (main c2Config exWorld).events ∧
    [((1 : Nat), ("out/depth/frame_00001.png" : Path))] =
      externalDepthTable (joinPath c2Config.image_dir_parent "depth")
        (exWorld.listImages c2Config.depth_path) := by
  refine ⟨by decide, ((externalDepth_table_shape c2Config exWorld).1 (by decide)).1,
    by decide, ?_⟩
  exact (((externalDepth_table_shape c2Config exWorld).1 (by decide)).2
    2 [((1 : Nat), ("out/depth/frame_00001.png" : Path))] (some "masks/mask.png")
    none "perspective" (by decide)).1

/-- Counterexample for C3: when reconstruction is skipped and the colmap
model path is the default one, a missing `cameras.bin` is not fatal — the
run completes and the manifest is written. -/
theorem camerasBin_missing_not_always_fatal :
    exConfigSkipColmap.skip_colmap = true ∧
    exConfigSkipColmap.colmap_model_path = defaultColmapPath ∧
    noCamerasWorld.pathExists
      (joinPath exConfigSkipColmap.absolute_colmap_model_path "cameras.bin") = false ∧
    (main exConfigSkipColmap noCamerasWorld).error = none ∧
    (main exConfigSkipColmap noCamerasWorld).events.countP Event.isSaveTransforms = 1 := by
  decide

/-- C3 (amended): the absence of `cameras.bin` under the colmap model path
is fatal — no manifest invocation happens and the run ends in an error —
whenever reconstruction actually ran, or an explicit (non-default) colmap
model path was supplied; when reconstruction is skipped with the default
model path, no such check is performed. -/
theorem camerasBin_missing_fatal_when_required (c : Config) (w : World)
    (hreq : c.skip_colmap = false ∨ c.colmap_model_path ≠ defaultColmapPath)
    (hmiss : w.pathExists (joinPath c.absolute_colmap_model_path "cameras.bin") = false) :
    (main c w).error.isSome = true ∧
    (main c w).events.countP Event.isSaveTransforms = 0 := by
  obtain ⟨r, hr⟩ : ∃ r, main c w = r := ⟨_, rfl⟩
  rw [hr]
  simp only [main, runFromColmap, finishRun] at hr
  repeat' split at hr
  all_goals subst hr
  all_goals simp_all [Event.isSaveTransforms]

/-- Witness for C3 (amended) at a concrete run where reconstruction runs
and `cameras.bin` is missing. -/
theorem camerasBin_missing_fatal_when_required_witness :
    (exConfig.skip_colmap = false ∨ exConfig.colmap_model_path ≠ defaultColmapPath) ∧
    noCamerasWorld.pathExists
      (joinPath exConfig.absolute_colmap_model_path "cameras.bin") = false ∧
    (main exConfig noCamerasWorld).error.isSome = true ∧
    (main exConfig noCamerasWorld).events.countP Event.isSaveTransforms = 0 := by
  refine ⟨Or.inl (by decide), by decide, ?_⟩
  exact camerasBin_missing_fatal_when_required exConfig noCamerasWorld
    (Or.inl (by decide)) (by decide)

/-- C4: when image processing is not skipped and the working input
directory lists zero usable images, the run aborts with a fatal error,
reconstruction is never invoked and no manifest is written. -/
theorem zero_images_abort_before_reconstruction (c : Config) (w : World)
    (hskip : c.skip_image_processing = false)
    (hempty : w.listImages (workingData c w) = []) :
    (main c w).error.isSome = true ∧
    (∀ d ct, Event.runColmap d ct ∉ (main c w).events) ∧
    (main c w).events.countP Event.isSaveTransforms = 0 := by
  obtain ⟨r, hr⟩ : ∃ r, main c w = r := ⟨_, rfl⟩
  rw [hr]
  simp only [main, runFromColmap, finishRun] at hr
  repeat' split at hr
  all_goals subst hr
  all_goals simp_all [Event.isSaveTransforms, copy_images_ok_iff]

/-- Witness for C4 at a concrete run over an empty input directory. -/
theorem zero_images_abort_before_reconstruction_witness :
    exConfig.skip_image_processing = false ∧
    emptyWorld.listImages (workingData exConfig emptyWorld) = [] ∧
    (main exConfig emptyWorld).error.isSome = true ∧
    (∀ d ct, Event.runColmap d ct ∉ (main exConfig emptyWorld).events) ∧
    (main exConfig emptyWorld).events.countP Event.isSaveTransforms = 0 := by
  refine ⟨by decide, by decide, ?_, ?_, ?_⟩ <;>
    [exact (zero_images_abort_before_reconstruction exConfig emptyWorld (by decide)
        (by decide)).1;
     exact (zero_images_abort_before_reconstruction exConfig emptyWorld (by decide)
        (by decide)).2.1;
     exact (zero_images_abort_before_reconstruction exConfig emptyWorld (by decide)
        (by decide)).2.2]

/-- Counterexample for C5: in a run where the masks directory exists and
per-frame masks were NOT requested, the unique manifest invocation carries
the literal `masks/mask.png`, not the masks directory path — the opposite
of the claimed selection.  Dually, when per-frame masks WERE requested,
it carries the masks directory path, not the literal. -/
theorem mask_reference_selection_swapped :
    (exConfig.frame_mask_path = "" ∧
      exWorld.pathExists (joinPath exConfig.image_dir_parent "masks") = true ∧
      (main exConfig exWorld).events.countP Event.isSaveTransforms = 1 ∧
      Event.saveTransforms 2 [] (some "masks/mask.png") none "perspective"
        ∈ (main exConfig exWorld).events ∧
      some "masks/mask.png" ≠ some (joinPath exConfig.image_dir_parent "masks")) ∧
    (c5Config.frame_mask_path ≠ "" ∧
      exWorld.pathExists (joinPath c5Config.image_dir_parent "masks") = true ∧
      (main c5Config exWorld).events.countP Event.isSaveTransforms = 1 ∧
      Event.saveTransforms 2 [] (some (joinPath c5Config.image_dir_parent "masks"))
        none "perspective" ∈ (main c5Config exWorld).events ∧
      some (joinPath c5Config.image_dir_parent "masks") ≠ some "masks/mask.png") := by
  decide

/-- C5 (amended): at manifest-build time, if the masks output directory
exists on disk, the literal shared-mask reference `masks/mask.png` is used
unless per-frame masks were explicitly requested, in which case the masks
directory path is used instead; if the masks directory does not exist, the
dataset has no mask reference at all. -/
theorem mask_reference_resolution (c : Config) (w : World)
    {nf : Nat} {dt : List (Nat × Path)} {mp : Option String}
    {rm : Option (List (String × String))} {ct : String}
    (h : Event.saveTransforms nf dt mp rm ct ∈ (main c w).events) :
    mp = (if w.pathExists (joinPath c.image_dir_parent "masks") = true then
            (if c.frame_mask_path = "" then some "masks/mask.png"
             else some (joinPath c.image_dir_parent "masks"))
          else none) := by
  obtain ⟨-, hmp, -⟩ := saveTransforms_mem h
  rw [hmp]
  simp [resolvedMaskPath]

/-- Witness for C5 (amended) at a concrete run with an existing masks
directory and no per-frame mask request. -/
theorem mask_reference_resolution_witness :
    (Event.saveTransforms 2 [] (some "masks/mask.png") none "perspective"
      ∈ (main exConfig exWorld).events) ∧
    some "masks/mask.png" =
      (if exWorld.pathExists (joinPath exConfig.image_dir_parent "masks") = true then
        (if exConfig.frame_mask_path = "" then some "masks/mask.png"
         else some (joinPath exConfig.image_dir_parent "masks"))
       else none) :=
  ⟨by decide, @mask_reference_resolution exConfig exWorld 2 [] (some "masks/mask.png")
    none "perspective" (by decide)⟩

/-- C6: an explicitly supplied (non-default) colmap model path is fatal
before any preprocessing work when reconstruction is not also skipped, and
fatal with an error naming the missing path when the supplied path does not
exist on disk — in both cases no collaborator is ever invoked. -/
theorem explicit_colmap_path_preconditions (c : Config) (w : World)
    (h : c.colmap_model_path ≠ defaultColmapPath) :
    (c.skip_colmap = false →
      main c w = ⟨[], some (.runtimeError
        "The --colmap-model-path can only be used when --skip-colmap is not set.")⟩) ∧
    (c.skip_colmap = true →
      w.pathExists (joinPath c.output_dir c.colmap_model_path) = false →
      main c w = ⟨[], some (.runtimeError ("The colmap-model-path " ++
        joinPath c.output_dir c.colmap_model_path ++ " does not exist."))⟩) := by
  constructor
  · intro h1
    simp [main, h, h1]
  · intro h1 h2
    simp [main, h, h1, h2]

/-- Witness for C6 at concrete runs exercising both preconditions. -/
theorem explicit_colmap_path_preconditions_witness :
    c6aConfig.colmap_model_path ≠ defaultColmapPath ∧
    main c6aConfig exWorld = ⟨[], some (.runtimeError
      "The --colmap-model-path can only be used when --skip-colmap is not set.")⟩ ∧
    main c6bConfig customMissingWorld = ⟨[], some (.runtimeError
      ("The colmap-model-path " ++
        joinPath c6bConfig.output_dir c6bConfig.colmap_model_path ++
        " does not exist."))⟩ :=
  ⟨by decide,
   (explicit_colmap_path_preconditions c6aConfig exWorld (by decide)).1 (by decide),
   (explicit_colmap_path_preconditions c6bConfig customMissingWorld (by decide)).2
     (by decide) (by decide)⟩

/-- C7: manifest atomicity — a run that ends in a fatal error never
invokes the manifest writer, and a successful run invokes it exactly once,
as its final action. -/
theorem manifest_atomicity (c : Config) (w : World) :
    ((main c w).error.isSome = true →
      (main c w).events.countP Event.isSaveTransforms = 0) ∧
    ((main c w).error = none →
      (main c w).events.countP Event.isSaveTransforms = 1 ∧
      ∃ nf dt mp rm ct, (main c w).events.getLast? =
        some (Event.saveTransforms nf dt mp rm ct)) := by
  have hc := manifest_written_iff_no_error c w
  constructor
  · intro hs
    rw [hc]
    cases herr : (main c w).error with
    | none => rw [herr] at hs; cases hs
    | some e => simp [herr]
  · intro hn
    exact ⟨by simp [hc, hn], last_event_is_saveTransforms hn⟩

/-- Witness for C7 at a concrete successful run and a concrete failing
run. -/
theorem manifest_atomicity_witness :
    ((main exConfig exWorld).error = none ∧
      (main exConfig exWorld).events.countP Event.isSaveTransforms = 1) ∧
    ((main exConfig emptyWorld).error.isSome = true ∧
      (main exConfig emptyWorld).events.countP Event.isSaveTransforms = 0) :=
  ⟨⟨by decide, ((manifest_atomicity exConfig exWorld).2 (by decide)).1⟩,
   ⟨by decide, (manifest_atomicity exConfig emptyWorld).1 (by decide)⟩⟩

/-- C8: with an equirectangular camera type, the working input path is
replaced by the directory of generated planar projections and the camera
model is re-tagged perspective before any downstream stage runs: the
non-nearest image copy reads from the projections directory, colmap runs
on it with the perspective tag, and the manifest builder observes the
perspective tag — never the equirectangular one. -/
theorem equirect_projections_replace_input (c : Config) (w : World)
    (h : c.camera_type = "equirectangular") :
    (∀ src dst cf, Event.copyImages src dst cf false ∈ (main c w).events →
      src = w.planarProjectionsDir c.data) ∧
    (∀ d ct, Event.runColmap d ct ∈ (main c w).events →
      d = w.planarProjectionsDir c.data ∧ ct = "perspective") ∧
    (∀ nf dt mp rm ct, Event.saveTransforms nf dt mp rm ct ∈ (main c w).events →
      ct = "perspective" ∧ ct ≠ "equirectangular") := by
  obtain ⟨r, hr⟩ : ∃ r, main c w = r := ⟨_, rfl⟩
  rw [hr]
  simp only [main, runFromColmap, finishRun] at hr
  repeat' split at hr
  all_goals subst hr
  all_goals refine ⟨fun a b cf hm => ?_, fun a b hm => ?_,
    fun q1 q2 q3 q4 q5 hm => ?_⟩
  all_goals simp_all [workingData, workingCameraType]

/-- Witness for C8 at a concrete equirectangular run. -/
theorem equirect_projections_replace_input_witness :
    eqConfig.camera_type = "equirectangular" ∧
    (Event.runColmap (eqWorld.planarProjectionsDir eqConfig.data) "perspective"
      ∈ (main eqConfig eqWorld).events) ∧
    ("data/planar" = eqWorld.planarProjectionsDir eqConfig.data ∧
      "perspective" = "perspective") :=
  ⟨by decide, by decide,
   (equirect_projections_replace_input eqConfig eqWorld (by decide)).2.1
     "data/planar" "perspective" (by decide)⟩

/-- C9: configuring an external depth directory together with
skip-image-processing makes the run fail with an unhandled
`UnboundLocalError` on `copied_depth_images` when building the depth
table (the variable is only assigned in the non-skipped image-processing
branch), and no manifest is written. -/
theorem external_depth_requires_image_processing (c : Config) (w : World)
    (hd : c.depth_path ≠ "") (hs : c.skip_image_processing = true)
    (hcfg : c.colmap_model_path = defaultColmapPath)
    (himg : w.listImages (workingData c w) ≠ []) :
    (main c w).error = some (.unboundLocal "copied_depth_images") ∧
    (main c w).events.countP Event.isSaveTransforms = 0 := by
  obtain ⟨r, hr⟩ : ∃ r, main c w = r := ⟨_, rfl⟩
  rw [hr]
  simp only [main, runFromColmap, finishRun] at hr
  repeat' split at hr
  all_goals subst hr
  all_goals simp_all [Event.isSaveTransforms]

/-- Witness for C9 at the concrete hazardous configuration. -/
theorem external_depth_requires_image_processing_witness :
    c9Config.depth_path ≠ "" ∧
    c9Config.skip_image_processing = true ∧
    (main c9Config exWorld).error = some (.unboundLocal "copied_depth_images") ∧
    (main c9Config exWorld).events.countP Event.isSaveTransforms = 0 := by
  refine ⟨by decide, by decide, ?_, ?_⟩ <;>
    [exact (external_depth_requires_image_processing c9Config exWorld (by decide)
      (by decide) (by decide) (by decide)).1;
     exact (external_depth_requires_image_processing c9Config exWorld (by decide)
      (by decide) (by decide) (by decide)).2]

/-- C10: every mask-generation invocation is passed the hard-coded zero
crop factor `(0, 0, 0, 0)` regardless of the configured crop factor, while
every image or depth copy invocation is passed the configured crop
factor. -/
theorem mask_crop_factor_hardcoded_zero (c : Config) (w : World) :
    (∀ dir cf pr fmp, Event.saveMask dir cf pr fmp ∈ (main c w).events →
      cf = (0, 0, 0, 0)) ∧
    (∀ src dst cf nn, Event.copyImages src dst cf nn ∈ (main c w).events →
      cf = c.crop_factor) := by
  constructor <;> intro a b cf d h <;>
  · simp only [main, runFromColmap, finishRun] at h
    repeat' split at h
    all_goals try simp_all
    all_goals tauto

/-- Witness for C10 at a concrete run configured with the non-zero crop
factor `(3, 0, 0, 0)`. -/
theorem mask_crop_factor_hardcoded_zero_witness :
    (Event.saveMask exConfig.image_dir (0, 0, 0, 0) 1 ""
        ∈ (main exConfig exWorld).events ∧
      ((0, 0, 0, 0) : CropFactor) = (0, 0, 0, 0)) ∧
    (Event.copyImages "data" exConfig.image_dir (3, 0, 0, 0) false
        ∈ (main exConfig exWorld).events ∧
      ((3, 0, 0, 0) : CropFactor) = exConfig.crop_factor) :=
  ⟨⟨by decide, (mask_crop_factor_hardcoded_zero exConfig exWorld).1
      exConfig.image_dir (0, 0, 0, 0) 1 "" (by decide)⟩,
   ⟨by decide, (mask_crop_factor_hardcoded_zero exConfig exWorld).2
      "data" exConfig.image_dir (3, 0, 0, 0) false (by decide)⟩⟩

end Claims

end ImagesToNerfstudio
